import Mathlib

/-!
Verification of the pyHS100 CLI resolution layer (src/pyHS100/cli.py).

The embedding models the device-resolution logic of the `cli` entry point
(lines 53-95) and the alias resolver `find_host_from_alias` (lines 142-156).
Network interaction is represented by a `Network` record supplying, for each
successive `Discover.discover` broadcast call, the list of device descriptors
that round yields (in the iteration order of the returned mapping, i.e. reply
arrival order after per-address de-duplication), and for `discover_single`
the descriptor obtained by probing one address.  Every probe the code issues
is recorded in an explicit probe trace, so frame claims (zero probes, exactly
one unicast probe, ...) are statable.

Modeling notes, matching the Python source:
- `Discover.discover(...).items()` is a dict's item view: a list of
  descriptors in insertion (= arrival) order.
- `ctx.invoke(discover)` runs the `discover` command callback on a child
  click context, so `ctx.obj` assignments inside it do not reach the outer
  context; for the entry point it is enumeration plus one broadcast probe.
- `click.echo` calls are presentation only and are not modeled.
-/

namespace PyHS100

/-- Device kind tag distinguishing the concrete handle classes
SmartBulb / SmartPlug / SmartStrip and an unknown kind. -/
inductive DeviceKind
  | bulb
  | plug
  | strip
  | unknown
deriving DecidableEq, Repr

/-- A parsed discovery reply: network address, alias string
(`dev.sync.get_alias()` in the source; `alias` is a reserved word in Lean,
hence `aliasName`), kind tag. -/
structure Descriptor where
  host : String
  aliasName : String
  kind : DeviceKind
deriving DecidableEq, Repr

/-- A network probe the code issues: a broadcast discovery round
(Discover.discover) or a unicast probe of one address
(Discover.discover_single). -/
inductive Probe
  | broadcast (target : String)
  | unicast (host : String)
deriving DecidableEq, Repr

/-- The environment: `rounds k` is the descriptor list the k-th
`Discover.discover` broadcast call of a run returns (k counted from 1, in
the mapping's iteration order); `single h` is the descriptor that
`Discover.discover_single h` yields, `none` when the address does not
answer. -/
structure Network where
  rounds : Nat → List Descriptor
  single : String → Option Descriptor

/-- String lowering, character by character.  This embeds Python's
`str.lower()`; it is written over the character list because Lean's own
`String.toLower` is defined by well-founded recursion over iterator
positions and does not evaluate by kernel reduction. -/
def strLower (s : String) : String :=
  ⟨s.data.map Char.toLower⟩

/-- The alias match test of cli.py line 153:
`dev.sync.get_alias().lower() == alias.lower()`. -/
def matchesAlias (a : String) (d : Descriptor) : Bool :=
  strLower d.aliasName == strLower a

/-- The inner loop of `find_host_from_alias` (lines 152-155): scan one
round's descriptors in iteration order, returning the host of the first
descriptor whose alias matches case-insensitively. -/
def scanRound (a : String) : List Descriptor → Option String
  | [] => none
  | d :: rest => if matchesAlias a d then some d.host else scanRound a rest

/-- The attempt loop of `find_host_from_alias` (lines 149-156).  `attempt`
is the number of the next discovery round, `n` the number of loop
iterations left (Python's `range(1, attempts)` yields `attempts - 1`
iterations starting at 1).  Returns the result together with the trace of
broadcast probes issued. -/
def find_host_go (a t : String) (net : Network) : Nat → Nat → Option String × List Probe
  | _, 0 => (none, [])
  | attempt, n + 1 =>
    match scanRound a (net.rounds attempt) with
    | some h => (some h, [Probe.broadcast t])
    | none =>
      let r := find_host_go a t net (attempt + 1) n
      (r.1, Probe.broadcast t :: r.2)

/-- `find_host_from_alias(alias, target, timeout, attempts)` together with
its probe trace.  The `timeout` argument is passed through to the transport
and does not affect the control flow. -/
def find_host_run (a t : String) (timeout attempts : Nat) (net : Network) :
    Option String × List Probe :=
  find_host_go a t net 1 (attempts - 1)

/-- cli.py lines 142-156: `find_host_from_alias`, result only. -/
def find_host_from_alias (a t : String) (timeout attempts : Nat) (net : Network) :
    Option String :=
  (find_host_run a t timeout attempts net).1

/-- Outcome of a `cli` entry-point run:
- `skipped`: invoked subcommand was `discover`, the callback returned at once;
- `aliasNotFound a`: alias discovery found nothing, message printed, return;
- `enumerated devs`: no host known, `ctx.invoke(discover)` enumerated the
  network and the callback returned with no device object set;
- `singleFailed h`: auto-detect probe of `h` got no descriptor;
- `handle d`: `ctx.obj` was set to the constructed device handle `d`;
- `noType`: the unreachable final `else` of lines 89-91. -/
inductive CliOutcome
  | skipped
  | aliasNotFound (a : String)
  | enumerated (devs : List Descriptor)
  | singleFailed (host : String)
  | handle (kind : DeviceKind) (host : String)
  | noType
deriving DecidableEq, Repr

/-- cli.py lines 80-92: construct the device object for a known host from
the kind flags, auto-detecting via one unicast `Discover.discover_single`
probe when no flag is given.  Returns the outcome and the probe trace. -/
def resolveDevice (host : String) (bulb plug strip : Bool) (net : Network) :
    CliOutcome × List Probe :=
  if !bulb && !plug && !strip then
    match net.single host with
    | some d => (CliOutcome.handle d.kind host, [Probe.unicast host])
    | none => (CliOutcome.singleFailed host, [Probe.unicast host])
  else if bulb then
    (CliOutcome.handle DeviceKind.bulb host, [])
  else if plug then
    (CliOutcome.handle DeviceKind.plug host, [])
  else if strip then
    (CliOutcome.handle DeviceKind.strip host, [])
  else
    (CliOutcome.noType, [])

/-- cli.py lines 53-95: the `cli` group callback.  `sub` is
`ctx.invoked_subcommand`; `ip`, `host`, `al` the --ip, --host and --alias
options; `target` the broadcast target; `bulb`/`plug`/`strip` the kind
flags.  The alias path calls `find_host_from_alias(alias, target)` with its
default `timeout=1, attempts=3`; Python's truthiness test `if host:` treats
an empty found host like `None`. -/
def cliMain (sub ip host al : Option String) (target : String)
    (bulb plug strip : Bool) (net : Network) : CliOutcome × List Probe :=
  if sub = some "discover" then
    (CliOutcome.skipped, [])
  else
    let host1 : Option String :=
      match ip, host with
      | some i, none => some i
      | _, h => h
    match al, host1 with
    | some a, none =>
      let r := find_host_run a target 1 3 net
      match r.1 with
      | some h =>
        if h = "" then
          (CliOutcome.aliasNotFound a, r.2)
        else
          let d := resolveDevice h bulb plug strip net
          (d.1, r.2 ++ d.2)
      | none => (CliOutcome.aliasNotFound a, r.2)
    | _, _ =>
      match host1 with
      | none => (CliOutcome.enumerated (net.rounds 1), [Probe.broadcast target])
      | some h => resolveDevice h bulb plug strip net

/-- A network on which nothing answers. -/
def emptyNet : Network :=
  ⟨fun _ => [], fun _ => none⟩

/-- Descriptor of the "Living Room" plug at 10.0.0.5 (spec scenario). -/
def dLiving : Descriptor :=
  ⟨"10.0.0.5", "Living Room", DeviceKind.plug⟩

/-- Descriptor of the "Bedroom" bulb at 10.0.0.9 (spec scenario). -/
def dBed : Descriptor :=
  ⟨"10.0.0.9", "Bedroom", DeviceKind.bulb⟩

/-- Two devices that share the alias "Room": a plug at 10.0.0.5... -/
def dRoom5 : Descriptor :=
  ⟨"10.0.0.5", "Room", DeviceKind.plug⟩

/-- ...and a bulb at 10.0.0.9. -/
def dRoom9 : Descriptor :=
  ⟨"10.0.0.9", "Room", DeviceKind.bulb⟩

/-- Network whose rounds list the higher address first. -/
def netHiFirst : Network :=
  ⟨fun _ => [dRoom9, dRoom5], fun _ => none⟩

/-- Network whose rounds list the lower address first (same set of
descriptors as `netHiFirst`, permuted). -/
def netLoFirst : Network :=
  ⟨fun _ => [dRoom5, dRoom9], fun _ => none⟩

/-- The two-device spec-scenario network: Living Room plug and Bedroom
bulb answer every broadcast round. -/
def netLB : Network :=
  ⟨fun _ => [dLiving, dBed], fun _ => none⟩

/-- A network where exactly one device answers broadcasts. -/
def netOne : Network :=
  ⟨fun _ => [dBed], fun _ => none⟩

/-- A network where broadcasts find nothing but the address 10.0.0.9
answers a unicast probe as the Bedroom bulb. -/
def netSingle : Network :=
  ⟨fun _ => [], fun h => if h = "10.0.0.9" then some dBed else none⟩

/-- If round `k` (with `attempt ≤ k < attempt + n`) is the first round in
scope whose scan succeeds, the attempt loop returns that scan's result. -/
lemma find_host_go_found (a t : String) (net : Network) (h : String) :
    ∀ n attempt k : Nat, attempt ≤ k → k < attempt + n →
    scanRound a (net.rounds k) = some h →
    (∀ j, attempt ≤ j → j < k → scanRound a (net.rounds j) = none) →
    (find_host_go a t net attempt n).1 = some h := by
  intro n
  induction n with
  | zero =>
    intro attempt k h1 h2 _ _
    omega
  | succ m ih =>
    intro attempt k h1 h2 hf hprev
    rcases Nat.eq_or_lt_of_le h1 with heq | hlt
    · subst heq
      simp [find_host_go, hf]
    · have h0 : scanRound a (net.rounds attempt) = none := hprev attempt le_rfl hlt
      simp only [find_host_go, h0]
      exact ih (attempt + 1) k hlt (by omega) hf (fun j hj1 hj2 => hprev j (by omega) hj2)

/-- Claim C1 (code bug): the claim demands that `find_host_from_alias`
with attempt budget N and no matching device perform exactly N discovery
rounds before returning no address, but the source loop
`for attempt in range(1, attempts)` performs only `attempts - 1` rounds:
with `attempts = 2` one broadcast round is issued (not two), and with
`attempts = 1` none at all. -/
theorem C1_attempt_budget_off_by_one :
    find_host_from_alias "nobody" "255.255.255.255" 1 2 emptyNet = none ∧
    (find_host_run "nobody" "255.255.255.255" 1 2 emptyNet).2 =
      [Probe.broadcast "255.255.255.255"] ∧
    find_host_from_alias "nobody" "255.255.255.255" 1 1 emptyNet = none ∧
    (find_host_run "nobody" "255.255.255.255" 1 1 emptyNet).2 = [] :=
  ⟨rfl, rfl, rfl, rfl⟩

/-- Claim C2, counterexample: two networks answering a round with the same
set of two descriptors that both carry alias "Room", in different arrival
orders.  `find_host_from_alias` returns a different address for each
order, and on the first it returns 10.0.0.9 although the strictly lower
address 10.0.0.5 also matches — so selection is by iteration order, not by
lowest network address, and the result does depend on arrival order. -/
theorem C2_counterexample_order_dependent :
    (netHiFirst.rounds 1).Perm (netLoFirst.rounds 1) ∧
    find_host_from_alias "room" "255.255.255.255" 1 3 netHiFirst = some "10.0.0.9" ∧
    find_host_from_alias "room" "255.255.255.255" 1 3 netLoFirst = some "10.0.0.5" ∧
    "10.0.0.5".data < "10.0.0.9".data :=
  ⟨by decide, by decide, by decide, by decide⟩

/-- Claim C2, amended: among a round's descriptors the resolver selects
the first match in the iteration order of the round's mapping (so the
selected address depends on reply arrival order, not on being the lowest
address): whenever the first executed round lists a matching descriptor
`d` first, the result is `d.host`, whatever descriptors follow. -/
theorem C2_first_listed_match_wins (a t : String) (timeout attempts : Nat)
    (net : Network) (d : Descriptor) (rest : List Descriptor)
    (hatt : 2 ≤ attempts) (hr : net.rounds 1 = d :: rest)
    (hm : matchesAlias a d = true) :
    find_host_from_alias a t timeout attempts net = some d.host := by
  obtain ⟨m, hm2⟩ : ∃ m, attempts - 1 = m + 1 := ⟨attempts - 2, by omega⟩
  simp [find_host_from_alias, find_host_run, hm2, find_host_go, hr, scanRound, hm]

/-- Witness for C2's amended theorem: on the round listing the bulb at
10.0.0.9 before the plug at 10.0.0.5 (both aliased "Room"), the resolver
returns 10.0.0.9. -/
theorem C2_first_listed_match_wins_witness :
    find_host_from_alias "room" "255.255.255.255" 1 3 netHiFirst = some "10.0.0.9" :=
  C2_first_listed_match_wins "room" "255.255.255.255" 1 3 netHiFirst dRoom9 [dRoom5]
    (by omega) rfl (by decide)

/-- Claim C3: `find_host_from_alias` matches by case-insensitive exact
equality of the requested alias against each descriptor's alias (the
`scanRound`/`matchesAlias` test lowers both sides), and returns the
matching device's address on the first executed attempt whose round
contains a match. -/
theorem C3_case_insensitive_first_match (a t : String) (timeout attempts k : Nat)
    (net : Network) (h : String)
    (hk1 : 1 ≤ k) (hk2 : k < attempts)
    (hfound : scanRound a (net.rounds k) = some h)
    (hearlier : ∀ j, 1 ≤ j → j < k → scanRound a (net.rounds j) = none) :
    find_host_from_alias a t timeout attempts net = some h :=
  find_host_go_found a t net h (attempts - 1) 1 k hk1 (by omega) hfound hearlier

/-- Witness for C3: requesting "living room" on the spec-scenario network
(whose descriptor carries alias "Living Room") returns 10.0.0.5 on the
first attempt. -/
theorem C3_witness :
    find_host_from_alias "living room" "255.255.255.255" 1 3 netLB = some "10.0.0.5" :=
  C3_case_insensitive_first_match "living room" "255.255.255.255" 1 3 1 netLB "10.0.0.5"
    (by omega) (by omega) (by decide) (by intro j hj1 hj2; omega)

/-- Claim C4, counterexample: with no host and no alias the entry point
only invokes the `discover` subcommand, which enumerates every responding
descriptor: with two respondents the outcome is an enumeration of both
(no AmbiguousMatch is surfaced), with zero it is an empty enumeration (no
NotFound), and with exactly one it is a one-element enumeration (no device
handle is constructed). -/
theorem C4_counterexample_enumerates_instead :
    cliMain none none none none "255.255.255.255" false false false netLB =
      (CliOutcome.enumerated [dLiving, dBed], [Probe.broadcast "255.255.255.255"]) ∧
    cliMain none none none none "255.255.255.255" false false false emptyNet =
      (CliOutcome.enumerated [], [Probe.broadcast "255.255.255.255"]) ∧
    cliMain none none none none "255.255.255.255" false false false netOne =
      (CliOutcome.enumerated [dBed], [Probe.broadcast "255.255.255.255"]) :=
  ⟨rfl, rfl, rfl⟩

/-- Claim C4, amended: when neither a host nor an alias is supplied, the
entry point issues one full-network broadcast pass and enumerates all its
descriptors, constructing no device handle and drawing no distinction
between zero, one, or many respondents. -/
theorem C4_no_host_enumerates (t : String) (b p s : Bool) (net : Network) :
    cliMain none none none none t b p s net =
      (CliOutcome.enumerated (net.rounds 1), [Probe.broadcast t]) :=
  rfl

/-- Claim C5: with any explicit kind flag set, device resolution
constructs the handle of the asserted kind directly and issues no network
probe at all (empty probe trace). -/
theorem C5_typed_resolution_no_probe (h : String) (b p s : Bool) (net : Network)
    (hb : b || p || s = true) :
    (resolveDevice h b p s net).2 = [] ∧
    (b = true →
      resolveDevice h b p s net = (CliOutcome.handle DeviceKind.bulb h, [])) ∧
    (b = false → p = true →
      resolveDevice h b p s net = (CliOutcome.handle DeviceKind.plug h, [])) ∧
    (b = false → p = false → s = true →
      resolveDevice h b p s net = (CliOutcome.handle DeviceKind.strip h, [])) := by
  cases b <;> cases p <;> cases s <;> simp_all [resolveDevice]

/-- Witness for C5: resolving 10.0.0.5 with the bulb flag yields a bulb
handle and an empty probe trace. -/
theorem C5_witness :
    resolveDevice "10.0.0.5" true false false emptyNet =
      (CliOutcome.handle DeviceKind.bulb "10.0.0.5", []) :=
  (C5_typed_resolution_no_probe "10.0.0.5" true false false emptyNet rfl).2.1 rfl

/-- Claim C6: with no kind flag, device resolution issues exactly one
unicast discovery probe targeted at the given host (not a broadcast) and
constructs the handle carrying the kind tag of the returned descriptor. -/
theorem C6_autodetect_single_unicast_probe (h : String) (net : Network)
    (d : Descriptor) (hd : net.single h = some d) :
    resolveDevice h false false false net =
      (CliOutcome.handle d.kind h, [Probe.unicast h]) := by
  simp [resolveDevice, hd]

/-- Witness for C6: auto-detecting 10.0.0.9 on a network whose unicast
probe answers with a bulb descriptor yields a bulb handle and exactly one
unicast probe. -/
theorem C6_witness :
    resolveDevice "10.0.0.9" false false false netSingle =
      (CliOutcome.handle DeviceKind.bulb "10.0.0.9", [Probe.unicast "10.0.0.9"]) :=
  C6_autodetect_single_unicast_probe "10.0.0.9" netSingle dBed (by decide)

/-- Claim C7: when alias resolution exhausts its budget without a match
(both executed rounds of the entry point's fixed `attempts = 3` budget
scan to nothing), the entry point ends in the `aliasNotFound` outcome — a
returned value, not a raised error — having issued only the two broadcast
probes, constructed no device handle and set no state for downstream
commands. -/
theorem C7_alias_exhausted_returns_notfound (a t : String) (b p s : Bool)
    (net : Network)
    (h1 : scanRound a (net.rounds 1) = none)
    (h2 : scanRound a (net.rounds 2) = none) :
    cliMain none none none (some a) t b p s net =
      (CliOutcome.aliasNotFound a, [Probe.broadcast t, Probe.broadcast t]) := by
  simp [cliMain, find_host_run, find_host_go, h1, h2]

/-- Witness for C7: searching for "nobody" on a network with no devices
reports the alias as not found after two broadcast probes. -/
theorem C7_witness :
    cliMain none none none (some "nobody") "255.255.255.255" false false false emptyNet =
      (CliOutcome.aliasNotFound "nobody",
        [Probe.broadcast "255.255.255.255", Probe.broadcast "255.255.255.255"]) :=
  C7_alias_exhausted_returns_notfound "nobody" "255.255.255.255" false false false
    emptyNet rfl rfl

/-- Claim C8: an explicit host makes the run independent of both the alias
and the deprecated --ip option (first equation), and --ip is used as the
host exactly when no host is supplied (second equation). -/
theorem C8_explicit_host_wins (sub ip al : Option String) (h i t : String)
    (b p s : Bool) (net : Network) :
    cliMain sub ip (some h) al t b p s net = cliMain sub none (some h) none t b p s net ∧
    cliMain sub (some i) none al t b p s net = cliMain sub none (some i) al t b p s net := by
  constructor <;> cases ip <;> cases al <;> rfl

/-- Claim C9: conflicting kind flags are resolved by the fixed precedence
bulb over plug over strip, with a handle always constructed and no error
outcome. -/
theorem C9_kind_flag_precedence (h : String) (p s q : Bool) (net : Network) :
    resolveDevice h true p s net = (CliOutcome.handle DeviceKind.bulb h, []) ∧
    resolveDevice h false true q net = (CliOutcome.handle DeviceKind.plug h, []) ∧
    resolveDevice h false false true net = (CliOutcome.handle DeviceKind.strip h, []) :=
  ⟨rfl, rfl, rfl⟩

/-- Claim C10: when the invoked subcommand is `discover`, the entry point
returns at once: whatever host, alias, or kind flags are supplied, no
probe is issued, no alias lookup runs, no handle is constructed and no
state is set. -/
theorem C10_discover_subcommand_short_circuits (ip host al : Option String)
    (t : String) (b p s : Bool) (net : Network) :
    cliMain (some "discover") ip host al t b p s net = (CliOutcome.skipped, []) :=
  rfl

end PyHS100
